import Mathlib

/-!
Shallow embedding of the LightningProx MCP server (cmd/mcp-server/main.go).

The Go file is a stateless dispatcher with five tool handlers
(handleAskAI, handleGetInvoice, handleCheckBalance, handleListModels,
handleGetPricing).  All handlers traverse dynamically typed JSON
(map[string]interface{}) with Go's comma-ok type assertions, whose
"zero value on mismatch" semantics we reproduce exactly.

Modelling conventions, applied uniformly:
* Go float64 values are modelled as exact rationals; the decimal
  literals of the source (0.003, 1.2, ...) are finite decimals, so they
  are represented exactly.  Go's int(float64) conversion truncates
  toward zero, modelled by goTruncInt.
* The HTTP exchange performed by makeRequest is an oracle parameter
  (net : HTTPRequest -> NetResult).  A handler returns, besides its
  output, the list of requests it handed to makeRequest, so "the
  handler performs a network call with request r" is expressible.
  The headers field of HTTPRequest holds exactly the header map the
  handler passes to makeRequest; the Content-Type and User-Agent
  headers that makeRequest itself adds to every request are uniform
  and not payment-relevant, so they are not repeated here.
* makeRequest returns the raw body and the status code; the handler
  then runs json.Unmarshal into map[string]interface{}.  The response
  is modelled as the status, the raw body text, and the parse result
  (none when Unmarshal fails, e.g. the body is not a JSON object).
* time.Now() is an explicit parameter (seconds); the RFC3339
  formatting of the expiry timestamp is injective on instants, so the
  expires_at field is modelled as the instant itself.
-/

namespace LightningProx

/-- Dynamic JSON values, the image of Go's interface{} after json.Unmarshal:
null, bool, number (float64), string, array, object. -/
inductive JValue where
  | null : JValue
  | bool : Bool → JValue
  | num : ℚ → JValue
  | str : String → JValue
  | arr : List JValue → JValue
  | obj : List (String × JValue) → JValue

/-- Lookup of a key in a decoded JSON object, Go's m[k] on
map[string]interface{} (keys are unique after Unmarshal). -/
def getField (fields : List (String × JValue)) (k : String) : Option JValue :=
  (fields.find? (fun p => p.1 == k)).map (fun p => p.2)

/-- Go comma-ok string assertion with discarded ok: v.(string) gives the
zero value "" when the value is absent or not a string. -/
def strOr (v : Option JValue) : String :=
  match v with
  | some (JValue.str s) => s
  | _ => ""

/-- Go comma-ok float64 assertion with discarded ok: zero on absence or
type mismatch. -/
def numOr (v : Option JValue) : ℚ :=
  match v with
  | some (JValue.num q) => q
  | _ => 0

/-- Go comma-ok map assertion with discarded ok: a nil map (none) on
absence or type mismatch. -/
def objOr (v : Option JValue) : Option (List (String × JValue)) :=
  match v with
  | some (JValue.obj f) => some f
  | _ => none

/-- Key lookup through a possibly nil Go map: indexing a nil map yields
the missing-key result. -/
def plookup (o : Option (List (String × JValue))) (k : String) : Option JValue :=
  match o with
  | some f => getField f k
  | none => none

/-- Go's int(x) conversion on float64: truncation toward zero. -/
def goTruncInt (q : ℚ) : ℤ :=
  if 0 ≤ q then ⌊q⌋ else -⌊-q⌋

/-- The JSON body of a POST /v1/messages call: model, max_tokens and a
single user message holding the prompt (the only body shape the server
ever sends). -/
structure MessagesBody where
  model : String
  maxTokens : ℤ
  prompt : String
deriving DecidableEq, Repr

/-- One call handed to makeRequest: method, path, optional JSON body,
and the handler-supplied header map. -/
structure HTTPRequest where
  method : String
  path : String
  body : Option MessagesBody
  headers : List (String × String)
deriving DecidableEq, Repr

/-- The reply of an HTTP exchange: status code, raw body, and the result
of json.Unmarshal into map[string]interface{} (none on parse failure,
including a non-object top level). -/
structure UpstreamResponse where
  status : Nat
  raw : String
  parsed : Option (List (String × JValue))

/-- Result of makeRequest: either a transport failure (the error branch
of client.Do / body read) or a response. -/
inductive NetResult where
  | failure : String → NetResult
  | response : UpstreamResponse → NetResult

-- ---------------------------------------------------------------------------
-- ask_ai
-- ---------------------------------------------------------------------------

/-- Input of the ask_ai tool (AskAIInput).  Absent optional arguments
decode to the Go zero values: empty strings and 0. -/
structure AskAIInput where
  model : String
  prompt : String
  maxTokens : ℤ
  paymentHash : String
  spendToken : String
deriving DecidableEq, Repr

/-- Output of the ask_ai tool (AskAIOutput). -/
structure AskAIOutput where
  response : String
  chargeID : String
  paymentReq : String
  amountSats : ℤ
  amountUSD : ℚ
  status : String
  error : String
deriving DecidableEq, Repr

/-- The zero AskAIOutput, from which each branch sets its fields. -/
def emptyAskAIOutput : AskAIOutput :=
  ⟨"", "", "", 0, 0, "", ""⟩

/-- Header construction of handleAskAI: a non-empty spend token wins,
else a non-empty payment hash, else no payment header. -/
def askHeaders (i : AskAIInput) : List (String × String) :=
  if i.spendToken ≠ "" then [("X-Spend-Token", i.spendToken)]
  else if i.paymentHash ≠ "" then [("X-Payment-Hash", i.paymentHash)]
  else []

/-- The upstream request handleAskAI builds before calling makeRequest:
POST /v1/messages with defaulted model and max_tokens and the prompt
forwarded verbatim. -/
def askAIRequest (i : AskAIInput) : HTTPRequest :=
  { method := "POST"
    path := "/v1/messages"
    body := some
      { model := if i.model = "" then "claude-sonnet-4-20250514" else i.model
        maxTokens := if i.maxTokens ≤ 0 then 1024 else i.maxTokens
        prompt := i.prompt }
    headers := askHeaders i }

/-- The Anthropic-shape guard of handleAskAI: comma-ok assertion of
respData["content"] to []interface{}. -/
def contentArr (d : List (String × JValue)) : Option (List JValue) :=
  match getField d "content" with
  | some (JValue.arr l) => some l
  | _ => none

/-- The OpenAI-shape guard of handleAskAI: comma-ok assertion of
respData["choices"] to []interface{}. -/
def choicesArr (d : List (String × JValue)) : Option (List JValue) :=
  match getField d "choices" with
  | some (JValue.arr l) => some l
  | _ => none

/-- Text contributed by one Anthropic content block: its "text" field
when the block is an object carrying a string there, else nothing. -/
def blockText (b : JValue) : String :=
  match b with
  | JValue.obj f =>
    match getField f "text" with
    | some (JValue.str t) => t
    | _ => ""
  | _ => ""

/-- Text contributed by one OpenAI choice: message.content when the
choice is an object whose "message" is an object with a string
"content", else nothing. -/
def choiceText (c : JValue) : String :=
  match c with
  | JValue.obj f =>
    match getField f "message" with
    | some (JValue.obj m) =>
      (match getField m "content" with
       | some (JValue.str t) => t
       | _ => "")
    | _ => ""
  | _ => ""

/-- The response-text extraction of handleAskAI on a 200 body: try the
Anthropic shape, else the OpenAI shape, accumulating with +=. -/
def extractText (d : List (String × JValue)) : String :=
  match contentArr d with
  | some blocks => blocks.foldl (fun acc b => acc ++ blockText b) ""
  | none =>
    match choicesArr d with
    | some choices => choices.foldl (fun acc c => acc ++ choiceText c) ""
    | none => ""

/-- The response-classification tail of handleAskAI: parse failure, then
402, then non-200, then success, exactly in the order of the source. -/
def processAskAIResponse (r : UpstreamResponse) : AskAIOutput :=
  match r.parsed with
  | none => { emptyAskAIOutput with status := "error", error := "failed to parse response" }
  | some respData =>
    if r.status = 402 then
      let payment := objOr (getField respData "payment")
      { emptyAskAIOutput with
        status := "payment_required"
        chargeID := strOr (plookup payment "charge_id")
        paymentReq := strOr (plookup payment "payment_request")
        amountSats := goTruncInt (numOr (plookup payment "amount_sats"))
        amountUSD := numOr (plookup payment "amount_usd") }
    else if r.status ≠ 200 then
      let errMsg := strOr (getField respData "error")
      let msg := if errMsg = "" then "HTTP " ++ toString r.status ++ ": " ++ r.raw else errMsg
      { emptyAskAIOutput with status := "error", error := msg }
    else
      { emptyAskAIOutput with status := "success", response := extractText respData }

/-- handleAskAI: build the request, perform the single exchange through
the oracle, classify the reply.  The first component is the list of
requests handed to makeRequest. -/
def handleAskAI (i : AskAIInput) (net : HTTPRequest → NetResult) :
    List HTTPRequest × AskAIOutput :=
  let req := askAIRequest i
  match net req with
  | NetResult.failure msg =>
      ([req], { emptyAskAIOutput with status := "error", error := msg })
  | NetResult.response r => ([req], processAskAIResponse r)

-- ---------------------------------------------------------------------------
-- get_invoice
-- ---------------------------------------------------------------------------

/-- Input of the get_invoice tool (GetInvoiceInput). -/
structure GetInvoiceInput where
  model : String
  maxTokens : ℤ
  prompt : String
deriving DecidableEq, Repr

/-- Output of the get_invoice tool (GetInvoiceOutput).  expiresAt is the
instant (seconds) whose RFC3339 rendering the Go code returns; the Go
zero value "" of the non-invoice branches is modelled by 0. -/
structure GetInvoiceOutput where
  chargeID : String
  paymentReq : String
  amountSats : ℤ
  amountUSD : ℚ
  expiresAt : ℤ
  status : String
deriving DecidableEq, Repr

/-- The zero GetInvoiceOutput. -/
def emptyGetInvoiceOutput : GetInvoiceOutput :=
  ⟨"", "", 0, 0, 0, ""⟩

/-- The upstream request handleGetInvoice builds: POST /v1/messages with
defaulted model, max_tokens and prompt, and a nil header map (no
payment header ever). -/
def invoiceRequest (i : GetInvoiceInput) : HTTPRequest :=
  { method := "POST"
    path := "/v1/messages"
    body := some
      { model := if i.model = "" then "claude-sonnet-4-20250514" else i.model
        maxTokens := if i.maxTokens ≤ 0 then 1024 else i.maxTokens
        prompt := if i.prompt = "" then "ping" else i.prompt }
    headers := [] }

/-- handleGetInvoice: one exchange with no payment header; a status
other than 402 is reported as unexpected_status_N; a 402 body is parsed
and its nested payment object extracted with zero-value defaults;
expires_at is time.Now() + 15 minutes, locally computed. -/
def handleGetInvoice (i : GetInvoiceInput) (now : ℤ)
    (net : HTTPRequest → NetResult) : List HTTPRequest × GetInvoiceOutput :=
  let req := invoiceRequest i
  match net req with
  | NetResult.failure _ =>
      ([req], { emptyGetInvoiceOutput with status := "error" })
  | NetResult.response r =>
    if r.status ≠ 402 then
      ([req], { emptyGetInvoiceOutput with
                  status := "unexpected_status_" ++ toString r.status })
    else
      match r.parsed with
      | none => ([req], { emptyGetInvoiceOutput with status := "error" })
      | some respData =>
        let payment := objOr (getField respData "payment")
        ([req],
         { chargeID := strOr (plookup payment "charge_id")
           paymentReq := strOr (plookup payment "payment_request")
           amountSats := goTruncInt (numOr (plookup payment "amount_sats"))
           amountUSD := numOr (plookup payment "amount_usd")
           expiresAt := now + 15 * 60
           status := "invoice_generated" })

-- ---------------------------------------------------------------------------
-- check_balance
-- ---------------------------------------------------------------------------

/-- Input of the check_balance tool (CheckBalanceInput). -/
structure CheckBalanceInput where
  spendToken : String
deriving DecidableEq, Repr

/-- Output of the check_balance tool (CheckBalanceOutput). -/
structure CheckBalanceOutput where
  balanceSats : ℤ
  balanceUSD : ℚ
  requestsLeft : ℤ
  expiresAt : String
  status : String
deriving DecidableEq, Repr

/-- The upstream request handleCheckBalance builds: GET /v1/balance with
the spend-token header (set even when the token argument is empty). -/
def balanceRequest (i : CheckBalanceInput) : HTTPRequest :=
  { method := "GET"
    path := "/v1/balance"
    body := none
    headers := [("X-Spend-Token", i.spendToken)] }

/-- handleCheckBalance: one GET exchange; non-200 statuses become
error_N; a parseable 200 body yields the balance fields with zero-value
defaults and the constant status "ok". -/
def handleCheckBalance (i : CheckBalanceInput) (net : HTTPRequest → NetResult) :
    List HTTPRequest × CheckBalanceOutput :=
  let req := balanceRequest i
  match net req with
  | NetResult.failure _ => ([req], ⟨0, 0, 0, "", "error"⟩)
  | NetResult.response r =>
    if r.status ≠ 200 then
      ([req], ⟨0, 0, 0, "", "error_" ++ toString r.status⟩)
    else
      match r.parsed with
      | none => ([req], ⟨0, 0, 0, "", "error"⟩)
      | some respData =>
        ([req],
         ⟨goTruncInt (numOr (getField respData "balance_sats")),
          numOr (getField respData "balance_usd"),
          goTruncInt (numOr (getField respData "requests_left_estimate")),
          strOr (getField respData "expires_at"),
          "ok"⟩)

-- ---------------------------------------------------------------------------
-- list_models
-- ---------------------------------------------------------------------------

/-- One entry of the static model roster (ModelInfo): base provider
costs per 1K tokens, without markup. -/
structure ModelInfo where
  id : String
  provider : String
  inputCost : ℚ
  outputCost : ℚ
  maxContext : ℤ
deriving DecidableEq, Repr

/-- handleListModels: the embedded static roster, no network call. -/
def handleListModels : List ModelInfo :=
  [⟨"claude-sonnet-4-20250514", "anthropic", 0.003, 0.015, 200000⟩,
   ⟨"claude-3-5-sonnet-20241022", "anthropic", 0.003, 0.015, 200000⟩,
   ⟨"gpt-4-turbo", "openai", 0.01, 0.03, 128000⟩,
   ⟨"gpt-3.5-turbo", "openai", 0.0005, 0.0015, 16385⟩]

-- ---------------------------------------------------------------------------
-- get_pricing
-- ---------------------------------------------------------------------------

/-- A pricing-table entry of handleGetPricing: per-1K costs with the 20%
markup already applied. -/
structure PricingEntry where
  inputCost : ℚ
  outputCost : ℚ
deriving DecidableEq, Repr

/-- The pricing table of handleGetPricing, each cost pre-multiplied by
the 1.2 markup factor exactly as in the source. -/
def prices : List (String × PricingEntry) :=
  [("claude-sonnet-4-20250514", ⟨0.003 * 1.2, 0.015 * 1.2⟩),
   ("claude-3-5-sonnet-20241022", ⟨0.003 * 1.2, 0.015 * 1.2⟩),
   ("gpt-4-turbo", ⟨0.01 * 1.2, 0.03 * 1.2⟩),
   ("gpt-3.5-turbo", ⟨0.0005 * 1.2, 0.0015 * 1.2⟩)]

/-- Table lookup with the source's fallback: an unknown model gets the
default (sonnet) pricing entry. -/
def lookupPrice (model : String) : PricingEntry :=
  ((prices.find? (fun p => p.1 == model)).map (fun p => p.2)).getD
    ⟨0.003 * 1.2, 0.015 * 1.2⟩

/-- Output of the get_pricing tool (GetPricingOutput). -/
structure GetPricingOutput where
  model : String
  estimatedSats : ℤ
  estimatedUSD : ℚ
  inputCostPer1K : ℚ
  outputCostPer1K : ℚ
  markup : String
deriving DecidableEq, Repr

/-- handleGetPricing: default the model and token budget, look up the
marked-up entry (default sonnet on a miss), estimate USD with the fixed
100-input-token assumption, convert to sats by the BTC price (an
explicit parameter standing for the BTC_PRICE_USD override, default
100000), truncate to int and floor at 1 sat.  Pure, no network call. -/
def handleGetPricing (model : String) (maxTokens : ℤ) (btcPrice : ℚ) :
    GetPricingOutput :=
  let m := if model = "" then "claude-sonnet-4-20250514" else model
  let tok := if maxTokens ≤ 0 then 1024 else maxTokens
  let p := lookupPrice m
  let estimatedUSD := (100 / 1000 : ℚ) * p.inputCost + ((tok : ℚ) / 1000) * p.outputCost
  let rawSats := goTruncInt (estimatedUSD / btcPrice * 100000000)
  let estimatedSats := if rawSats < 1 then 1 else rawSats
  ⟨m, estimatedSats, estimatedUSD, p.inputCost, p.outputCost, "20%"⟩

-- ---------------------------------------------------------------------------
-- Helper lemmas (shared)
-- ---------------------------------------------------------------------------

/-- In-order concatenation of the texts contributed by a list of JSON
values, the specification-side reading of "concatenate, in order". -/
def concatMap (g : JValue → String) (l : List JValue) : String :=
  (l.map g).foldr (fun a b => a ++ b) ""

theorem foldl_append_eq_concatMap (g : JValue → String) :
    ∀ (l : List JValue) (acc : String),
      l.foldl (fun a b => a ++ g b) acc = acc ++ concatMap g l := by
  intro l
  induction l with
  | nil => intro acc; simp [concatMap]
  | cons x xs ih =>
    intro acc
    have hcons : concatMap g (x :: xs) = g x ++ concatMap g xs := rfl
    rw [List.foldl_cons, ih, hcons, String.append_assoc]

theorem handleAskAI_eq (i : AskAIInput) (net : HTTPRequest → NetResult) :
    handleAskAI i net =
      match net (askAIRequest i) with
      | NetResult.failure msg =>
          ([askAIRequest i], { emptyAskAIOutput with status := "error", error := msg })
      | NetResult.response r => ([askAIRequest i], processAskAIResponse r) := rfl

theorem processAskAIResponse_of_parse_failure (r : UpstreamResponse)
    (h : r.parsed = none) :
    processAskAIResponse r =
      { emptyAskAIOutput with status := "error", error := "failed to parse response" } := by
  unfold processAskAIResponse
  rw [h]

theorem processAskAIResponse_402 (r : UpstreamResponse) (d : List (String × JValue))
    (h : r.parsed = some d) (h402 : r.status = 402) :
    processAskAIResponse r =
      { emptyAskAIOutput with
        status := "payment_required"
        chargeID := strOr (plookup (objOr (getField d "payment")) "charge_id")
        paymentReq := strOr (plookup (objOr (getField d "payment")) "payment_request")
        amountSats := goTruncInt (numOr (plookup (objOr (getField d "payment")) "amount_sats"))
        amountUSD := numOr (plookup (objOr (getField d "payment")) "amount_usd") } := by
  unfold processAskAIResponse
  rw [h]
  dsimp only
  rw [if_pos h402]

theorem processAskAIResponse_other (r : UpstreamResponse) (d : List (String × JValue))
    (h : r.parsed = some d) (h200 : r.status ≠ 200) (h402 : r.status ≠ 402) :
    processAskAIResponse r =
      { emptyAskAIOutput with
        status := "error"
        error := if strOr (getField d "error") = ""
                 then "HTTP " ++ toString r.status ++ ": " ++ r.raw
                 else strOr (getField d "error") } := by
  unfold processAskAIResponse
  rw [h]
  dsimp only
  rw [if_neg h402, if_pos h200]

theorem processAskAIResponse_200 (r : UpstreamResponse) (d : List (String × JValue))
    (h : r.parsed = some d) (h200 : r.status = 200) :
    processAskAIResponse r =
      { emptyAskAIOutput with status := "success", response := extractText d } := by
  unfold processAskAIResponse
  rw [h]
  dsimp only
  rw [h200]
  simp

-- ---------------------------------------------------------------------------
-- Claim theorems
-- ---------------------------------------------------------------------------

/-- C1: for every ask_ai invocation the single upstream request carries
the spend-token header (and not the payment-hash header) whenever a
non-empty spend token is supplied — in particular when both credentials
are supplied — the payment-hash header when only a non-empty payment
hash is supplied, and no payment header at all when neither is
supplied. -/
theorem askAI_credential_precedence (i : AskAIInput) (net : HTTPRequest → NetResult) :
    (handleAskAI i net).1 = [askAIRequest i] ∧
    (i.spendToken ≠ "" → i.paymentHash ≠ "" →
      (askAIRequest i).headers = [("X-Spend-Token", i.spendToken)]) ∧
    (i.spendToken = "" → i.paymentHash ≠ "" →
      (askAIRequest i).headers = [("X-Payment-Hash", i.paymentHash)]) ∧
    (i.spendToken = "" → i.paymentHash = "" → (askAIRequest i).headers = []) := by
  refine ⟨?_, ?_, ?_, ?_⟩
  · rw [handleAskAI_eq]
    cases net (askAIRequest i) <;> rfl
  · intro hs _
    simp [askAIRequest, askHeaders, hs]
  · intro hs hp
    simp [askAIRequest, askHeaders, hs, hp]
  · intro hs hp
    simp [askAIRequest, askHeaders, hs, hp]

/-- Witness for C1 at a concrete invocation carrying both credentials:
the spend-token header is selected. -/
theorem askAI_credential_precedence_witness :
    (handleAskAI ⟨"m", "p", 10, "hash1", "tok1"⟩ (fun _ => NetResult.failure "x")).1
      = [askAIRequest ⟨"m", "p", 10, "hash1", "tok1"⟩] ∧
    (askAIRequest ⟨"m", "p", 10, "hash1", "tok1"⟩).headers = [("X-Spend-Token", "tok1")] := by
  have h := askAI_credential_precedence ⟨"m", "p", 10, "hash1", "tok1"⟩
    (fun _ => NetResult.failure "x")
  exact ⟨h.1, h.2.1 (by decide) (by decide)⟩

/-- C2 counterexample: with both model and prompt empty, handleAskAI
still performs a network call — the request trace is nonempty and holds
the defaulted POST /v1/messages request — refuting "returns a
ValidationError result and performs no network call". -/
theorem askAI_empty_args_network_call :
    (handleAskAI ⟨"", "", 0, "", ""⟩ (fun _ => NetResult.failure "connection refused")).1
      = [⟨"POST", "/v1/messages", some ⟨"claude-sonnet-4-20250514", 1024, ""⟩, []⟩] ∧
    (handleAskAI ⟨"", "", 0, "", ""⟩ (fun _ => NetResult.failure "connection refused")).1
      ≠ [] := by
  exact ⟨rfl, by decide⟩

/-- C2 amended: handleAskAI never validates model or prompt.  It always
performs exactly one network call; an empty model is replaced by the
default claude-sonnet-4-20250514 and an empty prompt is forwarded
unchanged; the result status is always one of error, payment_required
or success — no ValidationError result exists. -/
theorem askAI_no_validation (i : AskAIInput) (net : HTTPRequest → NetResult) :
    (handleAskAI i net).1 = [askAIRequest i] ∧
    (i.model = "" → (askAIRequest i).body =
      some ⟨"claude-sonnet-4-20250514",
            if i.maxTokens ≤ 0 then 1024 else i.maxTokens, i.prompt⟩) ∧
    ((handleAskAI i net).2.status = "error" ∨
     (handleAskAI i net).2.status = "payment_required" ∨
     (handleAskAI i net).2.status = "success") := by
  refine ⟨?_, ?_, ?_⟩
  · rw [handleAskAI_eq]
    cases net (askAIRequest i) <;> rfl
  · intro hm
    simp [askAIRequest, hm]
  · rw [handleAskAI_eq]
    cases hnet : net (askAIRequest i) with
    | failure msg => left; rfl
    | response r =>
      dsimp only
      rcases hp : r.parsed with _ | d
      · rw [processAskAIResponse_of_parse_failure r hp]
        left; rfl
      · by_cases h402 : r.status = 402
        · rw [processAskAIResponse_402 r d hp h402]
          right; left; rfl
        · by_cases h200 : r.status = 200
          · rw [processAskAIResponse_200 r d hp h200]
            right; right; rfl
          · rw [processAskAIResponse_other r d hp h200 h402]
            left; rfl

/-- Witness for C2 amended at the all-empty invocation. -/
theorem askAI_no_validation_witness :
    (handleAskAI ⟨"", "", 0, "", ""⟩ (fun _ => NetResult.failure "x")).1
      = [askAIRequest ⟨"", "", 0, "", ""⟩] ∧
    (askAIRequest ⟨"", "", 0, "", ""⟩).body = some ⟨"claude-sonnet-4-20250514", 1024, ""⟩ := by
  have h := askAI_no_validation ⟨"", "", 0, "", ""⟩ (fun _ => NetResult.failure "x")
  exact ⟨h.1, h.2.1 rfl⟩

/-- C3 counterexample: a 200 reply whose JSON object matches neither the
Anthropic nor the OpenAI shape yields a success whose response text is
empty — the raw body is NOT surfaced as a fallback payload, refuting
"the raw body is returned as the success payload (the result is never
empty)". -/
theorem askAI_no_raw_fallback :
    (handleAskAI ⟨"m", "p", 10, "", ""⟩
      (fun _ => NetResult.response
        ⟨200, "\x7b\x22foo\x22: 1\x7d", some [("foo", JValue.num 1)]⟩)).2.status
      = "success" ∧
    (handleAskAI ⟨"m", "p", 10, "", ""⟩
      (fun _ => NetResult.response
        ⟨200, "\x7b\x22foo\x22: 1\x7d", some [("foo", JValue.num 1)]⟩)).2.response
      = "" ∧
    ("" : String) ≠ "\x7b\x22foo\x22: 1\x7d" := by
  exact ⟨rfl, rfl, by decide⟩

/-- C3 amended: on a 200 reply with a parseable JSON object the result
is a non-error success; when the body carries an Anthropic-shaped
content list the response text is the in-order concatenation of the
string text fields of its blocks; else, when it carries an
OpenAI-shaped choices list, the in-order concatenation of each choice's
message content string; and when neither shape is present the response
text is the empty string (no raw-body fallback). -/
theorem askAI_success_extraction (i : AskAIInput) (net : HTTPRequest → NetResult)
    (r : UpstreamResponse) (d : List (String × JValue))
    (hnet : net (askAIRequest i) = NetResult.response r)
    (h200 : r.status = 200) (hp : r.parsed = some d) :
    (handleAskAI i net).2.status = "success" ∧
    (handleAskAI i net).2.error = "" ∧
    (∀ blocks, contentArr d = some blocks →
      (handleAskAI i net).2.response = concatMap blockText blocks) ∧
    (contentArr d = none → ∀ choices, choicesArr d = some choices →
      (handleAskAI i net).2.response = concatMap choiceText choices) ∧
    (contentArr d = none → choicesArr d = none →
      (handleAskAI i net).2.response = "") := by
  have hout : (handleAskAI i net).2 =
      { emptyAskAIOutput with status := "success", response := extractText d } := by
    rw [handleAskAI_eq, hnet]
    exact processAskAIResponse_200 r d hp h200
  rw [hout]
  refine ⟨rfl, rfl, ?_, ?_, ?_⟩
  · intro blocks hb
    show extractText d = concatMap blockText blocks
    unfold extractText
    rw [hb]
    dsimp only
    rw [foldl_append_eq_concatMap, String.empty_append]
  · intro hc choices hch
    show extractText d = concatMap choiceText choices
    unfold extractText
    rw [hc, hch]
    dsimp only
    rw [foldl_append_eq_concatMap, String.empty_append]
  · intro hc hch
    show extractText d = ""
    unfold extractText
    rw [hc, hch]

/-- Witness for C3 amended: the synthetic Anthropic-shaped body with
blocks "Hello " and "world" yields exactly "Hello world". -/
theorem askAI_success_extraction_witness :
    (handleAskAI ⟨"m", "p", 10, "", ""⟩
      (fun _ => NetResult.response
        ⟨200, "",
         some [("content",
                JValue.arr [JValue.obj [("type", JValue.str "text"),
                                        ("text", JValue.str "Hello ")],
                            JValue.obj [("text", JValue.str "world")]])]⟩)).2.response
      = "Hello world" := by
  have h := askAI_success_extraction ⟨"m", "p", 10, "", ""⟩
    (fun _ => NetResult.response
      ⟨200, "",
       some [("content",
              JValue.arr [JValue.obj [("type", JValue.str "text"),
                                      ("text", JValue.str "Hello ")],
                          JValue.obj [("text", JValue.str "world")]])]⟩)
    ⟨200, "",
     some [("content",
            JValue.arr [JValue.obj [("type", JValue.str "text"),
                                    ("text", JValue.str "Hello ")],
                        JValue.obj [("text", JValue.str "world")]])]⟩
    [("content",
      JValue.arr [JValue.obj [("type", JValue.str "text"),
                              ("text", JValue.str "Hello ")],
                  JValue.obj [("text", JValue.str "world")]])]
    rfl rfl rfl
  rw [h.2.2.1 _ rfl]
  rfl

/-- C4: on a 402 reply with a parseable JSON body the result has status
payment_required and carries charge_id, payment_request, amount_sats
and amount_usd from the nested payment object, any missing or
mistyped field (including the whole payment object) defaulting to the
empty string or zero, and the call does not fail. -/
theorem askAI_payment_required (i : AskAIInput) (net : HTTPRequest → NetResult)
    (r : UpstreamResponse) (d : List (String × JValue))
    (hnet : net (askAIRequest i) = NetResult.response r)
    (h402 : r.status = 402) (hp : r.parsed = some d) :
    (handleAskAI i net).2.status = "payment_required" ∧
    (handleAskAI i net).2.error = "" ∧
    (handleAskAI i net).2.chargeID
      = strOr (plookup (objOr (getField d "payment")) "charge_id") ∧
    (handleAskAI i net).2.paymentReq
      = strOr (plookup (objOr (getField d "payment")) "payment_request") ∧
    (handleAskAI i net).2.amountSats
      = goTruncInt (numOr (plookup (objOr (getField d "payment")) "amount_sats")) ∧
    (handleAskAI i net).2.amountUSD
      = numOr (plookup (objOr (getField d "payment")) "amount_usd") ∧
    (objOr (getField d "payment") = none →
      (handleAskAI i net).2.chargeID = "" ∧
      (handleAskAI i net).2.paymentReq = "" ∧
      (handleAskAI i net).2.amountSats = 0 ∧
      (handleAskAI i net).2.amountUSD = 0) := by
  have hout : (handleAskAI i net).2 =
      { emptyAskAIOutput with
        status := "payment_required"
        chargeID := strOr (plookup (objOr (getField d "payment")) "charge_id")
        paymentReq := strOr (plookup (objOr (getField d "payment")) "payment_request")
        amountSats := goTruncInt (numOr (plookup (objOr (getField d "payment")) "amount_sats"))
        amountUSD := numOr (plookup (objOr (getField d "payment")) "amount_usd") } := by
    rw [handleAskAI_eq, hnet]
    exact processAskAIResponse_402 r d hp h402
  rw [hout]
  refine ⟨rfl, rfl, rfl, rfl, rfl, rfl, ?_⟩
  intro hnone
  rw [hnone]
  refine ⟨rfl, rfl, ?_, rfl⟩
  show goTruncInt (numOr (plookup none "amount_sats")) = 0
  simp [goTruncInt, plookup, numOr]

/-- Witness for C4 at the end-to-end scenario of the specification: a
402 body with payment fields charge_id "c1" and amount_sats 50. -/
theorem askAI_payment_required_witness :
    (handleAskAI ⟨"claude-sonnet-4-20250514", "Explain quantum computing", 0, "", ""⟩
      (fun _ => NetResult.response
        ⟨402, "",
         some [("payment",
                JValue.obj [("charge_id", JValue.str "c1"),
                            ("payment_request", JValue.str "lnbc1xyz"),
                            ("amount_sats", JValue.num 50),
                            ("amount_usd", JValue.num 0.05)])]⟩)).2.status
      = "payment_required" ∧
    (handleAskAI ⟨"claude-sonnet-4-20250514", "Explain quantum computing", 0, "", ""⟩
      (fun _ => NetResult.response
        ⟨402, "",
         some [("payment",
                JValue.obj [("charge_id", JValue.str "c1"),
                            ("payment_request", JValue.str "lnbc1xyz"),
                            ("amount_sats", JValue.num 50),
                            ("amount_usd", JValue.num 0.05)])]⟩)).2.chargeID
      = "c1" ∧
    (handleAskAI ⟨"claude-sonnet-4-20250514", "Explain quantum computing", 0, "", ""⟩
      (fun _ => NetResult.response
        ⟨402, "",
         some [("payment",
                JValue.obj [("charge_id", JValue.str "c1"),
                            ("payment_request", JValue.str "lnbc1xyz"),
                            ("amount_sats", JValue.num 50),
                            ("amount_usd", JValue.num 0.05)])]⟩)).2.amountSats
      = 50 := by
  have h := askAI_payment_required
    ⟨"claude-sonnet-4-20250514", "Explain quantum computing", 0, "", ""⟩
    (fun _ => NetResult.response
      ⟨402, "",
       some [("payment",
              JValue.obj [("charge_id", JValue.str "c1"),
                          ("payment_request", JValue.str "lnbc1xyz"),
                          ("amount_sats", JValue.num 50),
                          ("amount_usd", JValue.num 0.05)])]⟩)
    ⟨402, "",
     some [("payment",
            JValue.obj [("charge_id", JValue.str "c1"),
                        ("payment_request", JValue.str "lnbc1xyz"),
                        ("amount_sats", JValue.num 50),
                        ("amount_usd", JValue.num 0.05)])]⟩
    [("payment",
      JValue.obj [("charge_id", JValue.str "c1"),
                  ("payment_request", JValue.str "lnbc1xyz"),
                  ("amount_sats", JValue.num 50),
                  ("amount_usd", JValue.num 0.05)])]
    rfl rfl rfl
  refine ⟨h.1, ?_, ?_⟩
  · rw [h.2.2.1]
    rfl
  · rw [h.2.2.2.2.1]
    show goTruncInt (50 : ℚ) = 50
    rw [goTruncInt, if_pos (by norm_num : (0 : ℚ) ≤ 50)]
    norm_num

/-- C5: on a reply with a status other than 200 and 402 and a parseable
JSON body, the result is an error whose message is the body's string
error field when present and non-empty, else a synthesized message
containing the status code and the raw body; a body that fails to
parse as JSON also yields an error result. -/
theorem askAI_upstream_http_error (i : AskAIInput) (net : HTTPRequest → NetResult)
    (r : UpstreamResponse)
    (hnet : net (askAIRequest i) = NetResult.response r) :
    (r.parsed = none →
      (handleAskAI i net).2 =
        { emptyAskAIOutput with status := "error", error := "failed to parse response" }) ∧
    (∀ d, r.parsed = some d → r.status ≠ 200 → r.status ≠ 402 →
      (handleAskAI i net).2.status = "error" ∧
      (handleAskAI i net).2.error =
        (if strOr (getField d "error") = ""
         then "HTTP " ++ toString r.status ++ ": " ++ r.raw
         else strOr (getField d "error"))) := by
  constructor
  · intro hp
    rw [handleAskAI_eq, hnet]
    exact processAskAIResponse_of_parse_failure r hp
  · intro d hp h200 h402
    have hout : (handleAskAI i net).2 =
        { emptyAskAIOutput with
          status := "error"
          error := if strOr (getField d "error") = ""
                   then "HTTP " ++ toString r.status ++ ": " ++ r.raw
                   else strOr (getField d "error") } := by
      rw [handleAskAI_eq, hnet]
      exact processAskAIResponse_other r d hp h200 h402
    rw [hout]
    exact ⟨rfl, rfl⟩

/-- Witness for C5: a 500 reply whose body carries error "boom" yields
an error result with exactly that message. -/
theorem askAI_upstream_http_error_witness :
    (handleAskAI ⟨"m", "p", 10, "", ""⟩
      (fun _ => NetResult.response
        ⟨500, "rawbody", some [("error", JValue.str "boom")]⟩)).2.status = "error" ∧
    (handleAskAI ⟨"m", "p", 10, "", ""⟩
      (fun _ => NetResult.response
        ⟨500, "rawbody", some [("error", JValue.str "boom")]⟩)).2.error = "boom" := by
  have h := askAI_upstream_http_error ⟨"m", "p", 10, "", ""⟩
    (fun _ => NetResult.response ⟨500, "rawbody", some [("error", JValue.str "boom")]⟩)
    ⟨500, "rawbody", some [("error", JValue.str "boom")]⟩ rfl
  have h2 := h.2 [("error", JValue.str "boom")] rfl (by decide) (by decide)
  refine ⟨h2.1, ?_⟩
  rw [h2.2]
  rfl

theorem handleGetInvoice_eq (i : GetInvoiceInput) (now : ℤ) (net : HTTPRequest → NetResult) :
    handleGetInvoice i now net =
      match net (invoiceRequest i) with
      | NetResult.failure _ =>
          ([invoiceRequest i], { emptyGetInvoiceOutput with status := "error" })
      | NetResult.response r =>
        if r.status ≠ 402 then
          ([invoiceRequest i],
           { emptyGetInvoiceOutput with status := "unexpected_status_" ++ toString r.status })
        else
          match r.parsed with
          | none => ([invoiceRequest i], { emptyGetInvoiceOutput with status := "error" })
          | some respData =>
            ([invoiceRequest i],
             { chargeID := strOr (plookup (objOr (getField respData "payment")) "charge_id")
               paymentReq := strOr (plookup (objOr (getField respData "payment")) "payment_request")
               amountSats := goTruncInt (numOr (plookup (objOr (getField respData "payment")) "amount_sats"))
               amountUSD := numOr (plookup (objOr (getField respData "payment")) "amount_usd")
               expiresAt := now + 15 * 60
               status := "invoice_generated" }) := rfl

theorem handleCheckBalance_eq (i : CheckBalanceInput) (net : HTTPRequest → NetResult) :
    handleCheckBalance i net =
      match net (balanceRequest i) with
      | NetResult.failure _ => ([balanceRequest i], ⟨0, 0, 0, "", "error"⟩)
      | NetResult.response r =>
        if r.status ≠ 200 then
          ([balanceRequest i], ⟨0, 0, 0, "", "error_" ++ toString r.status⟩)
        else
          match r.parsed with
          | none => ([balanceRequest i], ⟨0, 0, 0, "", "error"⟩)
          | some respData =>
            ([balanceRequest i],
             ⟨goTruncInt (numOr (getField respData "balance_sats")),
              numOr (getField respData "balance_usd"),
              goTruncInt (numOr (getField respData "requests_left_estimate")),
              strOr (getField respData "expires_at"),
              "ok"⟩) := rfl

theorem unexpected_status_ne_success (s : String) :
    "unexpected_status_" ++ s ≠ "success" := by
  intro h
  have hlen := congrArg String.length h
  rw [String.length_append] at hlen
  have h18 : ("unexpected_status_" : String).length = 18 := rfl
  have h7 : ("success" : String).length = 7 := rfl
  rw [h18, h7] at hlen
  omega

theorem unexpected_status_ne_invoice (s : String) :
    "unexpected_status_" ++ s ≠ "invoice_generated" := by
  intro h
  have hlen := congrArg String.length h
  rw [String.length_append] at hlen
  have h18 : ("unexpected_status_" : String).length = 18 := rfl
  have h17 : ("invoice_generated" : String).length = 17 := rfl
  rw [h18, h17] at hlen
  omega

/-- C6 amended: get_invoice sends its single upstream request with no
payment header; a 402 reply with a parseable JSON body yields status
invoice_generated with the invoice fields from the nested payment
object; a 402 reply whose body fails to parse yields an error status;
any other status yields unexpected_status_N naming that status; and
get_invoice never reports plain success. -/
theorem getInvoice_outcomes (i : GetInvoiceInput) (now : ℤ) (net : HTTPRequest → NetResult) :
    (handleGetInvoice i now net).1 = [invoiceRequest i] ∧
    (invoiceRequest i).headers = [] ∧
    (∀ r d, net (invoiceRequest i) = NetResult.response r → r.status = 402 →
      r.parsed = some d →
      (handleGetInvoice i now net).2 =
        { chargeID := strOr (plookup (objOr (getField d "payment")) "charge_id")
          paymentReq := strOr (plookup (objOr (getField d "payment")) "payment_request")
          amountSats := goTruncInt (numOr (plookup (objOr (getField d "payment")) "amount_sats"))
          amountUSD := numOr (plookup (objOr (getField d "payment")) "amount_usd")
          expiresAt := now + 15 * 60
          status := "invoice_generated" }) ∧
    (∀ r, net (invoiceRequest i) = NetResult.response r → r.status = 402 →
      r.parsed = none → (handleGetInvoice i now net).2.status = "error") ∧
    (∀ r, net (invoiceRequest i) = NetResult.response r → r.status ≠ 402 →
      (handleGetInvoice i now net).2.status = "unexpected_status_" ++ toString r.status) ∧
    (handleGetInvoice i now net).2.status ≠ "success" := by
  refine ⟨?_, rfl, ?_, ?_, ?_, ?_⟩
  · rw [handleGetInvoice_eq]
    cases net (invoiceRequest i) with
    | failure m => rfl
    | response r =>
      dsimp only
      by_cases hs : r.status ≠ 402
      · rw [if_pos hs]
      · rw [if_neg hs]
        cases hp : r.parsed <;> rfl
  · intro r d hnet h402 hp
    rw [handleGetInvoice_eq, hnet]
    dsimp only
    rw [if_neg (not_not_intro h402), hp]
  · intro r hnet h402 hp
    rw [handleGetInvoice_eq, hnet]
    dsimp only
    rw [if_neg (not_not_intro h402), hp]
  · intro r hnet hs
    rw [handleGetInvoice_eq, hnet]
    dsimp only
    rw [if_pos hs]
  · rw [handleGetInvoice_eq]
    cases net (invoiceRequest i) with
    | failure m =>
      exact fun h => absurd h (show ("error" : String) ≠ "success" by decide)
    | response r =>
      dsimp only
      by_cases hs : r.status ≠ 402
      · rw [if_pos hs]
        exact unexpected_status_ne_success (toString r.status)
      · rw [if_neg hs]
        cases hp : r.parsed with
        | none => exact fun h => absurd h (show ("error" : String) ≠ "success" by decide)
        | some d =>
          exact fun h => absurd h (show ("invoice_generated" : String) ≠ "success" by decide)

/-- C6 counterexample: a 402 reply whose body is not parseable JSON
yields status "error", not "invoice_generated" — refuting the
unconditional "when the upstream replies 402 the result status is
invoice_generated". -/
theorem getInvoice_unparseable_402 :
    (handleGetInvoice ⟨"m", 5, "p"⟩ 0
      (fun _ => NetResult.response ⟨402, "not json", none⟩)).2.status = "error" ∧
    ("error" : String) ≠ "invoice_generated" := ⟨rfl, by decide⟩

/-- Witness for C6 amended at a concrete parseable 402 reply. -/
theorem getInvoice_outcomes_witness :
    (handleGetInvoice ⟨"m", 5, "p"⟩ 1000
      (fun _ => NetResult.response
        ⟨402, "",
         some [("payment", JValue.obj [("charge_id", JValue.str "c9")])]⟩)).2.status
      = "invoice_generated" ∧
    (invoiceRequest ⟨"m", 5, "p"⟩).headers = [] := by
  have h := getInvoice_outcomes ⟨"m", 5, "p"⟩ 1000
    (fun _ => NetResult.response
      ⟨402, "", some [("payment", JValue.obj [("charge_id", JValue.str "c9")])]⟩)
  refine ⟨?_, h.2.1⟩
  rw [h.2.2.1 ⟨402, "", some [("payment", JValue.obj [("charge_id", JValue.str "c9")])]⟩
        [("payment", JValue.obj [("charge_id", JValue.str "c9")])] rfl rfl rfl]

/-- C10: whenever get_invoice returns an invoice_generated result, its
expires_at is the handler's current time plus 15 minutes, computed
locally and independent of any expiry information carried by the 402
response body. -/
theorem getInvoice_expiry_local (i : GetInvoiceInput) (now : ℤ) (net : HTTPRequest → NetResult) :
    ((handleGetInvoice i now net).2.status = "invoice_generated" →
      (handleGetInvoice i now net).2.expiresAt = now + 15 * 60) ∧
    (∀ r r' d d', r.status = 402 → r.parsed = some d →
      r'.status = 402 → r'.parsed = some d' →
      (handleGetInvoice i now (fun _ => NetResult.response r)).2.expiresAt
        = (handleGetInvoice i now (fun _ => NetResult.response r')).2.expiresAt) := by
  have key : ∀ (m : HTTPRequest → NetResult) (r : UpstreamResponse) (d : List (String × JValue)),
      m (invoiceRequest i) = NetResult.response r → r.status = 402 → r.parsed = some d →
      (handleGetInvoice i now m).2.expiresAt = now + 15 * 60 := by
    intro m r d hnet h402 hp
    rw [handleGetInvoice_eq, hnet]
    dsimp only
    rw [if_neg (not_not_intro h402), hp]
  constructor
  · rw [handleGetInvoice_eq]
    cases net (invoiceRequest i) with
    | failure m =>
      exact fun h => absurd h (show ("error" : String) ≠ "invoice_generated" by decide)
    | response r =>
      dsimp only
      by_cases hs : r.status ≠ 402
      · rw [if_pos hs]
        exact fun h => absurd h (unexpected_status_ne_invoice (toString r.status))
      · rw [if_neg hs]
        cases hp : r.parsed with
        | none =>
          exact fun h => absurd h (show ("error" : String) ≠ "invoice_generated" by decide)
        | some d => exact fun _ => rfl
  · intro r r' d d' h1 hp1 h2 hp2
    rw [key (fun _ => NetResult.response r) r d rfl h1 hp1,
        key (fun _ => NetResult.response r') r' d' rfl h2 hp2]

/-- Witness for C10 at a concrete parseable 402 reply: expires_at is
now + 900 seconds. -/
theorem getInvoice_expiry_local_witness :
    (handleGetInvoice ⟨"m", 5, "p"⟩ 1000
      (fun _ => NetResult.response ⟨402, "", some []⟩)).2.expiresAt = 1000 + 15 * 60 := by
  exact (getInvoice_expiry_local ⟨"m", 5, "p"⟩ 1000
    (fun _ => NetResult.response ⟨402, "", some []⟩)).1 rfl

/-- C9 counterexample: the status of a check_balance result is the
constant "ok", not a normalization of the body's status field — a 200
body whose status is "expired" still yields "ok", as does a 200 body
with no status field at all; so the result's status is not taken from
the upstream response body. -/
theorem checkBalance_status_constant :
    (handleCheckBalance ⟨"lnpx_abc"⟩
      (fun _ => NetResult.response
        ⟨200, "", some [("balance_sats", JValue.num 120),
                        ("status", JValue.str "expired")]⟩)).2.status = "ok" ∧
    ("ok" : String) ≠ "expired" ∧
    (handleCheckBalance ⟨"lnpx_abc"⟩
      (fun _ => NetResult.response
        ⟨200, "", some [("balance_sats", JValue.num 120)]⟩)).2.status = "ok" :=
  ⟨rfl, by decide, rfl⟩

/-- C9 amended: on a 200 reply with a parseable JSON body the balance,
estimated-requests-remaining and expiry fields are taken from the
corresponding body fields (with zero-value defaults), the request
carries the spend-token header, and the result's status field is the
constant "ok" regardless of any status field in the body. -/
theorem checkBalance_normalization (i : CheckBalanceInput) (net : HTTPRequest → NetResult)
    (r : UpstreamResponse) (d : List (String × JValue))
    (hnet : net (balanceRequest i) = NetResult.response r)
    (h200 : r.status = 200) (hp : r.parsed = some d) :
    (handleCheckBalance i net).1 = [balanceRequest i] ∧
    (balanceRequest i).headers = [("X-Spend-Token", i.spendToken)] ∧
    (handleCheckBalance i net).2 =
      ⟨goTruncInt (numOr (getField d "balance_sats")),
       numOr (getField d "balance_usd"),
       goTruncInt (numOr (getField d "requests_left_estimate")),
       strOr (getField d "expires_at"),
       "ok"⟩ := by
  rw [handleCheckBalance_eq, hnet]
  dsimp only
  rw [if_neg (not_not_intro h200), hp]
  exact ⟨rfl, rfl, rfl⟩

/-- Witness for C9 amended at the end-to-end scenario of the
specification: balance_sats 120 with body status "active" yields
balance 120 and result status "ok". -/
theorem checkBalance_normalization_witness :
    (handleCheckBalance ⟨"lnpx_abc"⟩
      (fun _ => NetResult.response
        ⟨200, "", some [("balance_sats", JValue.num 120),
                        ("status", JValue.str "active")]⟩)).2.balanceSats = 120 ∧
    (handleCheckBalance ⟨"lnpx_abc"⟩
      (fun _ => NetResult.response
        ⟨200, "", some [("balance_sats", JValue.num 120),
                        ("status", JValue.str "active")]⟩)).2.status = "ok" := by
  have h := checkBalance_normalization ⟨"lnpx_abc"⟩
    (fun _ => NetResult.response
      ⟨200, "", some [("balance_sats", JValue.num 120), ("status", JValue.str "active")]⟩)
    ⟨200, "", some [("balance_sats", JValue.num 120), ("status", JValue.str "active")]⟩
    [("balance_sats", JValue.num 120), ("status", JValue.str "active")] rfl rfl rfl
  constructor
  · rw [h.2.2]
    show goTruncInt (120 : ℚ) = 120
    rw [goTruncInt, if_pos (by norm_num : (0 : ℚ) ≤ 120)]
    norm_num
  · rw [h.2.2]

theorem ite_lt_one_eq_max (x : ℤ) : (if x < 1 then 1 else x) = max 1 x := by
  by_cases h : x < 1
  · rw [if_pos h, max_eq_left (by omega)]
  · rw [if_neg h, max_eq_right (by omega)]

theorem handleGetPricing_spec (model : String) (maxTokens : ℤ) (btcPrice : ℚ)
    (hm : model ≠ "") (ht : 0 < maxTokens) :
    handleGetPricing model maxTokens btcPrice =
      { model := model
        estimatedSats := max 1 (goTruncInt
          (((100 / 1000 : ℚ) * (lookupPrice model).inputCost
            + ((maxTokens : ℚ) / 1000) * (lookupPrice model).outputCost)
            / btcPrice * 100000000))
        estimatedUSD := (100 / 1000 : ℚ) * (lookupPrice model).inputCost
          + ((maxTokens : ℚ) / 1000) * (lookupPrice model).outputCost
        inputCostPer1K := (lookupPrice model).inputCost
        outputCostPer1K := (lookupPrice model).outputCost
        markup := "20%" } := by
  unfold handleGetPricing
  dsimp only
  rw [if_neg hm, if_neg (not_le.mpr ht), ite_lt_one_eq_max]

/-- C7: get_pricing is total — for every model identifier (known or
not) and every max_tokens the estimate is produced with estimated_sats
at least 1, an unknown model falls back to the default entry, and that
default equals the flagship (claude-sonnet-4-20250514) table entry. -/
theorem getPricing_total_floor (model : String) (maxTokens : ℤ) (btcPrice : ℚ) :
    1 ≤ (handleGetPricing model maxTokens btcPrice).estimatedSats ∧
    (prices.find? (fun p => p.1 == model) = none →
      (handleGetPricing model maxTokens btcPrice).inputCostPer1K = 0.003 * 1.2 ∧
      (handleGetPricing model maxTokens btcPrice).outputCostPer1K = 0.015 * 1.2) ∧
    lookupPrice "claude-sonnet-4-20250514" = ⟨0.003 * 1.2, 0.015 * 1.2⟩ := by
  refine ⟨?_, ?_, rfl⟩
  · unfold handleGetPricing
    dsimp only
    split <;> omega
  · intro h
    by_cases hm : model = ""
    · subst hm
      exact ⟨rfl, rfl⟩
    · unfold handleGetPricing
      dsimp only
      rw [if_neg hm]
      unfold lookupPrice
      rw [h]
      exact ⟨rfl, rfl⟩

/-- Witness for C7 at an unknown model identifier. -/
theorem getPricing_total_floor_witness :
    1 ≤ (handleGetPricing "unknown-model-xyz" 500 100000).estimatedSats ∧
    (handleGetPricing "unknown-model-xyz" 500 100000).inputCostPer1K = 0.003 * 1.2 := by
  have h := getPricing_total_floor "unknown-model-xyz" 500 100000
  exact ⟨h.1, (h.2.1 (by decide)).1⟩

/-- C8 counterexample: at model claude-sonnet-4-20250514 with
max_tokens 1024 and the default rate 100000, the marked-up estimate is
18.792 sats before integer conversion; the code truncates to 18 while
the claimed round(usd / rate x 100,000,000) gives 19. -/
theorem getPricing_trunc_not_round :
    (handleGetPricing "claude-sonnet-4-20250514" 1024 100000).estimatedSats = 18 ∧
    round ((handleGetPricing "claude-sonnet-4-20250514" 1024 100000).estimatedUSD
      / 100000 * 100000000) = 19 ∧
    (18 : ℤ) ≠ 19 := by
  have hq : ((100 / 1000 : ℚ) * (0.003 * 1.2) + ((1024 : ℤ) : ℚ) / 1000 * (0.015 * 1.2))
      / 100000 * 100000000 = 2349 / 125 := by
    norm_num
  have hfloor : goTruncInt (2349 / 125) = 18 := by
    unfold goTruncInt
    rw [if_pos (by norm_num)]
    norm_num
  have hs := handleGetPricing_spec "claude-sonnet-4-20250514" 1024 100000
    (by decide) (by decide)
  have hl : lookupPrice "claude-sonnet-4-20250514" = ⟨0.003 * 1.2, 0.015 * 1.2⟩ := rfl
  rw [hl] at hs
  refine ⟨?_, ?_, by decide⟩
  · rw [hs]
    show max 1 (goTruncInt (((100 / 1000 : ℚ) * (0.003 * 1.2)
      + ((1024 : ℤ) : ℚ) / 1000 * (0.015 * 1.2)) / 100000 * 100000000)) = 18
    rw [hq, hfloor]
    omega
  · rw [hs]
    show round ((((100 / 1000 : ℚ) * (0.003 * 1.2)
      + ((1024 : ℤ) : ℚ) / 1000 * (0.015 * 1.2)) / 100000) * 100000000) = 19
    rw [round_eq]
    norm_num

/-- C8 amended: for every known model and positive max_tokens the
estimated USD cost is (100/1000) x inputCostPer1K + (max_tokens/1000)
x outputCostPer1K over the marked-up table entries, the satoshi
estimate is the truncation toward zero (Go int conversion, not
rounding) of estimatedUSD / rate x 100,000,000 floored at 1 sat, and
the 20% markup is applied once, at table construction, each table
entry being the base roster cost times 1.2. -/
theorem getPricing_estimate_formula (pe : String × PricingEntry) (hpe : pe ∈ prices)
    (maxTokens : ℤ) (btcPrice : ℚ) (ht : 0 < maxTokens) :
    (handleGetPricing pe.1 maxTokens btcPrice).inputCostPer1K = pe.2.inputCost ∧
    (handleGetPricing pe.1 maxTokens btcPrice).outputCostPer1K = pe.2.outputCost ∧
    (handleGetPricing pe.1 maxTokens btcPrice).estimatedUSD
      = (100 / 1000 : ℚ) * pe.2.inputCost + ((maxTokens : ℚ) / 1000) * pe.2.outputCost ∧
    (handleGetPricing pe.1 maxTokens btcPrice).estimatedSats
      = max 1 (goTruncInt ((handleGetPricing pe.1 maxTokens btcPrice).estimatedUSD
          / btcPrice * 100000000)) ∧
    (∀ mi ∈ handleListModels, mi.id = pe.1 →
      pe.2.inputCost = mi.inputCost * 1.2 ∧ pe.2.outputCost = mi.outputCost * 1.2) := by
  fin_cases hpe <;>
  · rw [handleGetPricing_spec _ _ btcPrice (by decide) ht]
    refine ⟨rfl, rfl, rfl, rfl, ?_⟩
    intro mi hmi hid
    fin_cases hmi <;>
      first
        | exact ⟨rfl, rfl⟩
        | exact absurd hid (by decide)

/-- Witness for C8 amended at the end-to-end pricing scenario of the
specification: gpt-3.5-turbo with 500 output tokens. -/
theorem getPricing_estimate_formula_witness :
    (handleGetPricing "gpt-3.5-turbo" 500 100000).estimatedUSD
      = (100 / 1000 : ℚ) * (0.0005 * 1.2) + ((500 : ℤ) : ℚ) / 1000 * (0.0015 * 1.2) ∧
    (handleGetPricing "gpt-3.5-turbo" 500 100000).inputCostPer1K = 0.0005 * 1.2 := by
  have h := getPricing_estimate_formula ("gpt-3.5-turbo", ⟨0.0005 * 1.2, 0.0015 * 1.2⟩)
    (List.Mem.tail _ (List.Mem.tail _ (List.Mem.tail _ (List.Mem.head _))))
    500 100000 (by decide)
  exact ⟨h.2.2.1, h.1⟩

end LightningProx
